import Mathlib

/-!
Shallow embedding of the animation core of the `game1` repository:
the Player animation selector (src/Player.js), the procedural sprite
frame generator (src/SpriteGenerator.js, GameScene.generateAllFrames),
and the spritesheet clip-table configuration (src/SpriteEditorConfig.js).
-/

namespace Game1

/-- The four facing directions of `Player.js` (`'down' | 'left' | 'right' | 'up'`). -/
inductive Direction where
  | down
  | left
  | right
  | up
deriving DecidableEq, Repr, Fintype

/-- The three playable actions of `Player.js` (`'idle' | 'walk' | 'run'`). -/
inductive Action where
  | idle
  | walk
  | run
deriving DecidableEq, Repr, Fintype

/-- String name of a direction, as used in animation keys (`Player.js`). -/
def Direction.name : Direction → String
  | .down => "down"
  | .left => "left"
  | .right => "right"
  | .up => "up"

/-- String name of an action, as used in animation keys (`Player.js`). -/
def Action.name : Action → String
  | .idle => "idle"
  | .walk => "walk"
  | .run => "run"

namespace Player

/-- The mutable animation state of a `Player` instance:
`this.currentState` and `this.currentDirection` (Player.js constructor). -/
structure CharState where
  action : Action
  direction : Direction
deriving DecidableEq, Repr, Fintype

/-- The per-tick movement input consumed by `Player.updateAnimation`:
four direction flags plus the `isRunning` modifier. -/
structure MoveInput where
  left : Bool
  right : Bool
  up : Bool
  down : Bool
  running : Bool
deriving DecidableEq, Repr, Fintype

/-- Direction resolution of `Player.updateAnimation` (Player.js lines 310-331):
`newDirection` starts as the previous direction; when some flag is set it is
overwritten by the first true flag of the chain
`if (left) ... else if (right) ... else if (up) ... else if (down) ...`. -/
def resolveDirection (prev : Direction) (i : MoveInput) : Direction :=
  if i.left || i.right || i.up || i.down then
    if i.left then .left
    else if i.right then .right
    else if i.up then .up
    else if i.down then .down
    else prev
  else prev

/-- Action resolution of `Player.updateAnimation` (Player.js lines 310-331):
`newState` starts as `'idle'`; when some flag is set it becomes
`isRunning ? 'run' : 'walk'`. -/
def resolveAction (i : MoveInput) : Action :=
  if i.left || i.right || i.up || i.down then
    if i.running then .run else .walk
  else .idle

/-- The clip key `` `${newState}-${newDirection}` `` built in `Player.updateAnimation`. -/
def animKey (a : Action) (d : Direction) : String :=
  a.name ++ "-" ++ d.name

/-- `Player.updateAnimation` (Player.js lines 310-352) as a pure transition:
returns the next stored state together with the clip key passed to
`this.sprite.play`, or `none` when state and direction are both unchanged
(the code only plays a clip inside the
`newState !== currentState || newDirection !== currentDirection` branch). -/
def updateAnimation (s : CharState) (i : MoveInput) : CharState × Option String :=
  let nd := resolveDirection s.direction i
  let na := resolveAction i
  if na = s.action ∧ nd = s.direction then
    (s, none)
  else
    ({ action := na, direction := nd }, some (animKey na nd))

end Player

/-- C1: direction resolution picks the first true flag in the fixed priority
order left > right > up > down, and keeps the previous direction when no flag
is set. -/
theorem player_direction_resolution (prev : Direction) (i : Player.MoveInput) :
    (i.left = true → Player.resolveDirection prev i = .left) ∧
    (i.left = false → i.right = true → Player.resolveDirection prev i = .right) ∧
    (i.left = false → i.right = false → i.up = true →
      Player.resolveDirection prev i = .up) ∧
    (i.left = false → i.right = false → i.up = false → i.down = true →
      Player.resolveDirection prev i = .down) ∧
    (i.left = false → i.right = false → i.up = false → i.down = false →
      Player.resolveDirection prev i = prev) := by
  obtain ⟨l, r, u, d, run⟩ := i
  cases l <;> cases r <;> cases u <;> cases d <;>
    simp [Player.resolveDirection]

/-- Witness for C1: the spec's own example, `left=true, up=true, down=true,
right=false` resolves to `left`. -/
theorem player_direction_resolution_witness :
    Player.resolveDirection .down ⟨true, false, true, true, false⟩ = .left :=
  (player_direction_resolution .down ⟨true, false, true, true, false⟩).1 rfl

/-- C2: with no direction flag set the resolved action is `idle` regardless of
the running modifier; with at least one flag set it is `run` when `running`
holds and `walk` otherwise. -/
theorem player_action_resolution (i : Player.MoveInput) :
    ((i.left || i.right || i.up || i.down) = false →
      Player.resolveAction i = .idle) ∧
    ((i.left || i.right || i.up || i.down) = true →
      Player.resolveAction i = if i.running then .run else .walk) := by
  obtain ⟨l, r, u, d, run⟩ := i
  cases l <;> cases r <;> cases u <;> cases d <;>
    simp [Player.resolveAction]

/-- Witness for C2: all flags false with `running = true` still resolves to
`idle`. -/
theorem player_action_resolution_witness :
    Player.resolveAction ⟨false, false, false, false, true⟩ = .idle :=
  (player_action_resolution ⟨false, false, false, false, true⟩).1 rfl

/-- C3: the selector signals `some "{newAction}-{newDirection}"` and stores the
new pair exactly when the resolved pair differs from the stored pair, signals
`none` when they coincide, and a repeated call with the identical input right
after a first call always signals `none`. -/
theorem player_change_detection (s : Player.CharState) (i : Player.MoveInput) :
    ((Player.resolveAction i = s.action ∧
        Player.resolveDirection s.direction i = s.direction) →
      Player.updateAnimation s i = (s, none)) ∧
    (¬ (Player.resolveAction i = s.action ∧
        Player.resolveDirection s.direction i = s.direction) →
      Player.updateAnimation s i =
        (⟨Player.resolveAction i, Player.resolveDirection s.direction i⟩,
          some (Player.animKey (Player.resolveAction i)
            (Player.resolveDirection s.direction i)))) ∧
    (Player.updateAnimation (Player.updateAnimation s i).1 i).2 = none := by
  refine ⟨fun h => ?_, fun h => ?_, ?_⟩
  · simp [Player.updateAnimation, h.1, h.2]
  · simp only [Player.updateAnimation, if_neg h]
  · obtain ⟨a, d⟩ := s
    obtain ⟨l, r, u, dn, run⟩ := i
    cases l <;> cases r <;> cases u <;> cases dn <;> cases run <;>
      cases a <;> cases d <;>
        simp [Player.updateAnimation, Player.resolveAction,
          Player.resolveDirection, Player.animKey]

/-- Witness for C3: from the initial state `(idle, down)` the input
`{right: true}` switches to clip `"walk-right"` (spec end-to-end scenario 1),
and repeating that input signals no second switch. -/
theorem player_change_detection_witness :
    Player.updateAnimation ⟨.idle, .down⟩ ⟨false, true, false, false, false⟩ =
      (⟨.walk, .right⟩, some "walk-right") ∧
    (Player.updateAnimation
      (Player.updateAnimation ⟨.idle, .down⟩
        ⟨false, true, false, false, false⟩).1
      ⟨false, true, false, false, false⟩).2 = none := by
  have h := player_change_detection ⟨.idle, .down⟩ ⟨false, true, false, false, false⟩
  exact ⟨by simpa using h.2.1 (by decide), h.2.2⟩

namespace SpriteGenerator

/-- `this.frameWidth` (SpriteGenerator.js constructor). -/
def frameWidth : ℕ := 32

/-- `this.frameHeight` (SpriteGenerator.js constructor). -/
def frameHeight : ℕ := 32

/-- `this.framesPerRow` (SpriteGenerator.js constructor). -/
def framesPerRow : ℕ := 6

/-- `this.totalRows` (SpriteGenerator.js constructor). -/
def totalRows : ℕ := 12

/-- Width of the canvas created by `generateSpritesheet`:
`canvas.width = this.frameWidth * this.framesPerRow`. -/
def sheetWidth : ℕ := frameWidth * framesPerRow

/-- Height of the canvas created by `generateSpritesheet`:
`canvas.height = this.frameHeight * this.totalRows`. -/
def sheetHeight : ℕ := frameHeight * totalRows

/-- Index of a direction in the `['down', 'left', 'right', 'up']` array
iterated by `generateIdleAnimations`, `generateWalkAnimations` and
`generateRunAnimations`. -/
def dirIndex : Direction → ℕ
  | .down => 0
  | .left => 1
  | .right => 2
  | .up => 3

/-- First spritesheet row of an action: `generateIdleAnimations` draws into
rows `rowIndex`, `generateWalkAnimations` into `4 + dirIndex`, and
`generateRunAnimations` into `8 + dirIndex`. -/
def rowBase : Action → ℕ
  | .idle => 0
  | .walk => 4
  | .run => 8

/-- The spritesheet row that the generator draws `(action, direction)` into. -/
def rowOf (a : Action) (d : Direction) : ℕ :=
  rowBase a + dirIndex d

/-- Number of frames the generator draws per row: the idle loop runs
`frame < 4`, the walk and run loops run `frame < 6`. -/
def frameCount : Action → ℕ
  | .idle => 4
  | .walk => 6
  | .run => 6

/-- The per-frame vertical offset passed to `drawCharacter`:
`breathOffset` in `generateIdleAnimations` and `bounceOffset` in
`generateWalkAnimations` / `generateRunAnimations` (the same three formulas
appear in `GameScene.generateAllFrames`). -/
def verticalOffset (a : Action) (f : ℤ) : ℤ :=
  match a with
  | .idle => if f = 1 ∨ f = 3 then -1 else 0
  | .walk => if f = 0 ∨ f = 3 then 0 else -1
  | .run => if f = 0 ∨ f = 3 then 0 else -2

/-- Leg offsets returned by `calculateLegPositions`. The run scaling
multiplies by the non-integer factors 1.3 and 1.5, so the components are
rationals. -/
structure LegPos where
  leftX : ℚ
  rightX : ℚ
  leftY : ℚ
  rightY : ℚ
deriving DecidableEq, Repr

/-- The `walkCycle` array of `calculateLegPositions` (SpriteGenerator.js
lines 232-239). -/
def walkCycle : List LegPos :=
  [⟨-2, 2, 0, 0⟩, ⟨-3, 3, -1, 1⟩, ⟨-4, 4, 0, 0⟩,
   ⟨-2, 2, 0, 0⟩, ⟨-1, 1, 1, -1⟩, ⟨-4, 4, 0, 0⟩]

/-- `walkCycle[frame] || walkCycle[0]`: JavaScript array indexing yields
`undefined` outside `[0, 6)` and the `||` falls back to the entry at index 0. -/
def cycleEntry (f : ℤ) : LegPos :=
  if 0 ≤ f ∧ f < 6 then walkCycle.getD f.toNat ⟨0, 0, 0, 0⟩
  else walkCycle.getD 0 ⟨0, 0, 0, 0⟩

/-- The run amplification of `calculateLegPositions`: `leftX * 1.3`,
`rightX * 1.3`, `leftY * 1.5`, `rightY * 1.5`. -/
def scaleForRun (p : LegPos) : LegPos :=
  ⟨p.leftX * (13 / 10), p.rightX * (13 / 10), p.leftY * (3 / 2), p.rightY * (3 / 2)⟩

/-- `SpriteGenerator.calculateLegPositions` (lines 225-254): idle returns the
constant neutral stance, walk returns the cycle entry, run returns the
amplified cycle entry. -/
def calculateLegPositions (a : Action) (f : ℤ) : LegPos :=
  if a = .idle then ⟨-2, 2, 0, 0⟩
  else
    let positions := cycleEntry f
    if a = .run then scaleForRun positions
    else positions

end SpriteGenerator

/-- Counterexample to C4 as stated: the offset formulas are written on the
raw frame number, not on its residue, so `verticalOffset(walk, 6)` is `-1`
while the claim's mod-6 description (and its periodicity equation
`verticalOffset(walk, f) = verticalOffset(walk, f mod 6)`) demands `0`. -/
theorem verticalOffset_not_periodic :
    SpriteGenerator.verticalOffset .walk 6 = -1 ∧
    SpriteGenerator.verticalOffset .walk ((6 : ℤ) % 6) = 0 := by
  decide

/-- C4 amended: on the frame indices the generator actually draws
(`f < 4` for idle, `f < 6` for walk and run) the offsets match the claimed
congruence description, and the walk offset agrees with its value at
`f mod 6`. -/
theorem verticalOffset_on_generated_frames (f : ℤ) :
    (0 ≤ f → f < 4 → SpriteGenerator.verticalOffset .idle f =
      if f % 4 = 1 ∨ f % 4 = 3 then -1 else 0) ∧
    (0 ≤ f → f < 6 → SpriteGenerator.verticalOffset .walk f =
      if f % 6 = 0 ∨ f % 6 = 3 then 0 else -1) ∧
    (0 ≤ f → f < 6 → SpriteGenerator.verticalOffset .run f =
      if f % 6 = 0 ∨ f % 6 = 3 then 0 else -2) ∧
    (0 ≤ f → f < 6 → SpriteGenerator.verticalOffset .walk f =
      SpriteGenerator.verticalOffset .walk (f % 6)) := by
  refine ⟨fun h1 h2 => ?_, fun h1 h2 => ?_, fun h1 h2 => ?_, fun h1 h2 => ?_⟩ <;>
    interval_cases f <;> decide

/-- Witness for C4 amended: at frame 1, idle is lifted by one pixel, walk by
one and run by two. -/
theorem verticalOffset_on_generated_frames_witness :
    SpriteGenerator.verticalOffset .idle 1 = -1 ∧
    SpriteGenerator.verticalOffset .walk 1 = -1 ∧
    SpriteGenerator.verticalOffset .run 1 = -2 := by
  have h := verticalOffset_on_generated_frames 1
  refine ⟨?_, ?_, ?_⟩
  · simpa using h.1 (by decide) (by decide)
  · simpa using h.2.1 (by decide) (by decide)
  · simpa using h.2.2.1 (by decide) (by decide)

/-- Counterexample to C5 as stated: the cycle is indexed by the raw frame
number with a fallback to entry 0, not by `f mod 6`; at frame 7 the code
returns the neutral entry `(-2, 2, 0, 0)` while `walkCycle[7 mod 6]` is
`(-3, 3, -1, 1)`. -/
theorem legPositions_not_mod_indexed :
    SpriteGenerator.calculateLegPositions .walk 7 = ⟨-2, 2, 0, 0⟩ ∧
    SpriteGenerator.walkCycle.getD ((7 : ℤ) % 6).toNat ⟨0, 0, 0, 0⟩ =
      ⟨-3, 3, -1, 1⟩ := by
  constructor <;> rfl

/-- C5 amended: idle always yields the constant neutral stance; run equals
walk amplified by 1.3 horizontally and 1.5 vertically at every frame; walk is
the 6-entry cycle indexed by `f` itself for `f ∈ [0, 6)`, and falls back to
the cycle's entry 0 outside that range. -/
theorem legPositions_cycle (f : ℤ) :
    (SpriteGenerator.calculateLegPositions .idle f = ⟨-2, 2, 0, 0⟩) ∧
    (SpriteGenerator.calculateLegPositions .run f =
      SpriteGenerator.scaleForRun (SpriteGenerator.calculateLegPositions .walk f)) ∧
    (0 ≤ f → f < 6 → SpriteGenerator.calculateLegPositions .walk f =
      SpriteGenerator.walkCycle.getD f.toNat ⟨0, 0, 0, 0⟩) ∧
    (¬ (0 ≤ f ∧ f < 6) → SpriteGenerator.calculateLegPositions .walk f =
      SpriteGenerator.walkCycle.getD 0 ⟨0, 0, 0, 0⟩) := by
  refine ⟨rfl, ?_, fun h1 h2 => ?_, fun h => ?_⟩
  · simp [SpriteGenerator.calculateLegPositions]
  · simp [SpriteGenerator.calculateLegPositions, SpriteGenerator.cycleEntry,
      h1, h2]
  · simp [SpriteGenerator.calculateLegPositions, SpriteGenerator.cycleEntry, h]

/-- Witness for C5 amended: at frame 2 walk reaches maximal extension
`(-4, 4, 0, 0)` and run amplifies it to `(-5.2, 5.2, 0, 0)`. -/
theorem legPositions_cycle_witness :
    SpriteGenerator.calculateLegPositions .walk 2 =
      SpriteGenerator.walkCycle.getD (2 : ℤ).toNat ⟨0, 0, 0, 0⟩ ∧
    SpriteGenerator.calculateLegPositions .run 2 =
      SpriteGenerator.scaleForRun (SpriteGenerator.calculateLegPositions .walk 2) :=
  ⟨(legPositions_cycle 2).2.2.1 (by decide) (by decide), (legPositions_cycle 2).2.1⟩

namespace SpriteConfig

/-- One entry of the `animations` array of `DEFAULT_ANIMATION_CONFIG`
(SpriteEditorConfig.js): `action`, `direction`, `row`, `startFrame`,
`frameCount`, `frameRate`. Actions and directions are the strings the editor
stores. -/
structure AnimEntry where
  action : String
  direction : String
  row : ℕ
  startFrame : ℕ
  frameCount : ℕ
  frameRate : ℕ
deriving DecidableEq, Repr

/-- The `animations` array of `DEFAULT_ANIMATION_CONFIG`
(SpriteEditorConfig.js lines 28-46). -/
def DEFAULT_ANIMATIONS : List AnimEntry :=
  [⟨"idle", "down", 0, 0, 4, 4⟩,
   ⟨"idle", "left", 1, 0, 4, 4⟩,
   ⟨"idle", "right", 2, 0, 4, 4⟩,
   ⟨"idle", "up", 3, 0, 4, 4⟩,
   ⟨"walk", "down", 4, 0, 6, 8⟩,
   ⟨"walk", "left", 5, 0, 6, 8⟩,
   ⟨"walk", "right", 6, 0, 6, 8⟩,
   ⟨"walk", "up", 7, 0, 6, 8⟩,
   ⟨"run", "down", 8, 0, 6, 12⟩,
   ⟨"run", "left", 9, 0, 6, 12⟩,
   ⟨"run", "right", 10, 0, 6, 12⟩,
   ⟨"run", "up", 11, 0, 6, 12⟩]

/-- The field-update record passed to `SpriteConfig.updateAnimation` by the
editor (`{ row: value }`, `{ frameCount: value }`, `{ frameRate: value }` in
SpriteEditor.js); a field that is `none` is absent from the update object. -/
structure AnimUpdates where
  row : Option ℕ
  startFrame : Option ℕ
  frameCount : Option ℕ
  frameRate : Option ℕ
deriving DecidableEq, Repr

/-- `Object.assign(anim, updates)`: every field present in the update record
overwrites the entry's field; absent fields keep their value. -/
def applyUpdates (e : AnimEntry) (u : AnimUpdates) : AnimEntry :=
  { e with
    row := u.row.getD e.row
    startFrame := u.startFrame.getD e.startFrame
    frameCount := u.frameCount.getD e.frameCount
    frameRate := u.frameRate.getD e.frameRate }

/-- The entry pushed by `SpriteConfig.updateAnimation` when no entry matches:
`{ action, direction, row: 0, startFrame: 0, frameCount: 4, frameRate: 8,
...updates }`. -/
def newEntry (a d : String) (u : AnimUpdates) : AnimEntry :=
  applyUpdates ⟨a, d, 0, 0, 4, 8⟩ u

/-- `SpriteConfig.updateAnimation` (SpriteEditorConfig.js lines 133-152):
`find` the first entry with matching action and direction and
`Object.assign` the updates onto it, or push a defaulted new entry at the
end of the array when none matches. -/
def updateAnimation (l : List AnimEntry) (a d : String) (u : AnimUpdates) :
    List AnimEntry :=
  match l with
  | [] => [newEntry a d u]
  | e :: rest =>
    if e.action = a ∧ e.direction = d then applyUpdates e u :: rest
    else e :: updateAnimation rest a d u

/-- `SpriteConfig.getAnimation` (SpriteEditorConfig.js lines 157-161):
`find` the first entry with matching action and direction. -/
def getAnimation (l : List AnimEntry) (a d : String) : Option AnimEntry :=
  l.find? fun e => decide (e.action = a ∧ e.direction = d)

/-- The `row` fields of a clip table, in order. -/
def rowsOf (l : List AnimEntry) : List ℕ :=
  l.map (·.row)

end SpriteConfig

/-- C6: the generated tile sheet is 192 × 384 (32 × 6 wide, 32 × 12 tall), the
generator draws idle into rows 0-3, walk into rows 4-7 and run into rows 8-11
in direction order down, left, right, up, idle rows carry 4 frames and walk
and run rows 6, and every entry of the default clip table records the same
frame counts. -/
theorem spritesheet_grid_layout :
    SpriteGenerator.sheetWidth = 192 ∧ SpriteGenerator.sheetHeight = 384 ∧
    SpriteGenerator.rowOf .idle .down = 0 ∧
    SpriteGenerator.rowOf .idle .left = 1 ∧
    SpriteGenerator.rowOf .idle .right = 2 ∧
    SpriteGenerator.rowOf .idle .up = 3 ∧
    SpriteGenerator.rowOf .walk .down = 4 ∧
    SpriteGenerator.rowOf .walk .left = 5 ∧
    SpriteGenerator.rowOf .walk .right = 6 ∧
    SpriteGenerator.rowOf .walk .up = 7 ∧
    SpriteGenerator.rowOf .run .down = 8 ∧
    SpriteGenerator.rowOf .run .left = 9 ∧
    SpriteGenerator.rowOf .run .right = 10 ∧
    SpriteGenerator.rowOf .run .up = 11 ∧
    SpriteGenerator.frameCount .idle = 4 ∧
    SpriteGenerator.frameCount .walk = 6 ∧
    SpriteGenerator.frameCount .run = 6 ∧
    (SpriteConfig.DEFAULT_ANIMATIONS.all fun e =>
      (e.action == "idle") == (e.frameCount == 4) &&
      ((e.action == "walk" || e.action == "run") == (e.frameCount == 6))) = true := by
  decide

/-- Counterexample to C7: row uniqueness is not an invariant of
`updateAnimation` — a single call that sets `idle-down`'s row to 1 produces a
reachable table in which two entries share row 1. -/
theorem rows_uniqueness_not_preserved :
    ¬ List.Pairwise (· ≠ ·)
      (SpriteConfig.rowsOf
        (SpriteConfig.updateAnimation SpriteConfig.DEFAULT_ANIMATIONS
          "idle" "down" ⟨some 1, none, none, none⟩)) := by
  decide

/-- C7 amended: the row values of the default configuration are pairwise
distinct (`updateAnimation` does not preserve this: it writes whatever row
value the update record carries). -/
theorem rows_distinct_in_default :
    List.Pairwise (· ≠ ·) (SpriteConfig.rowsOf SpriteConfig.DEFAULT_ANIMATIONS) := by
  decide

/-- `Object.assign` never touches the `action` and `direction` keys of an
entry, because the editor's update records carry none. -/
theorem applyUpdates_keeps_key (e : SpriteConfig.AnimEntry)
    (u : SpriteConfig.AnimUpdates) :
    (SpriteConfig.applyUpdates e u).action = e.action ∧
    (SpriteConfig.applyUpdates e u).direction = e.direction :=
  ⟨rfl, rfl⟩

/-- C10: after `updateAnimation(action, direction, updates)` the lookup
`getAnimation(action, direction)` finds an entry that carries every field of
the update record, and when no entry existed before, that entry is the pushed
one whose fields absent from the update record default to
`row 0, startFrame 0, frameCount 4, frameRate 8`. -/
theorem config_update_get_round_trip (l : List SpriteConfig.AnimEntry)
    (a d : String) (u : SpriteConfig.AnimUpdates) :
    ∃ e, SpriteConfig.getAnimation (SpriteConfig.updateAnimation l a d u) a d =
        some e ∧
      (∀ v, u.row = some v → e.row = v) ∧
      (∀ v, u.startFrame = some v → e.startFrame = v) ∧
      (∀ v, u.frameCount = some v → e.frameCount = v) ∧
      (∀ v, u.frameRate = some v → e.frameRate = v) ∧
      (SpriteConfig.getAnimation l a d = none → e = SpriteConfig.newEntry a d u) := by
  induction l with
  | nil =>
    refine ⟨SpriteConfig.newEntry a d u, ?_, ?_, ?_, ?_, ?_, fun _ => rfl⟩
    · simp [SpriteConfig.getAnimation, SpriteConfig.updateAnimation,
        SpriteConfig.newEntry, SpriteConfig.applyUpdates, List.find?]
    all_goals
      intro v hv
      simp [SpriteConfig.newEntry, SpriteConfig.applyUpdates, hv]
  | cons e rest ih =>
    by_cases h : e.action = a ∧ e.direction = d
    · refine ⟨SpriteConfig.applyUpdates e u, ?_, ?_, ?_, ?_, ?_, ?_⟩
      · simp [SpriteConfig.getAnimation, SpriteConfig.updateAnimation, if_pos h,
          List.find?, SpriteConfig.applyUpdates, h.1, h.2]
      · intro v hv; simp [SpriteConfig.applyUpdates, hv]
      · intro v hv; simp [SpriteConfig.applyUpdates, hv]
      · intro v hv; simp [SpriteConfig.applyUpdates, hv]
      · intro v hv; simp [SpriteConfig.applyUpdates, hv]
      · intro hn
        exfalso
        simp [SpriteConfig.getAnimation, List.find?, h.1, h.2] at hn
    · obtain ⟨w, hw, h1, h2, h3, h4, h5⟩ := ih
      refine ⟨w, ?_, h1, h2, h3, h4, ?_⟩
      · simpa [SpriteConfig.getAnimation, SpriteConfig.updateAnimation,
          if_neg h, List.find?, h] using hw
      · intro hn
        refine h5 ?_
        simpa [SpriteConfig.getAnimation, List.find?, h] using hn

/-- Witness for C10: adding an `attack-down` clip with `row = 13` to the
default table yields exactly the defaulted entry with row 13 on lookup. -/
theorem config_update_get_round_trip_witness :
    ∃ e, SpriteConfig.getAnimation
        (SpriteConfig.updateAnimation SpriteConfig.DEFAULT_ANIMATIONS
          "attack" "down" ⟨some 13, none, none, none⟩) "attack" "down" =
        some e ∧
      (∀ v, (some 13 : Option ℕ) = some v → e.row = v) ∧
      (∀ v, (none : Option ℕ) = some v → e.startFrame = v) ∧
      (∀ v, (none : Option ℕ) = some v → e.frameCount = v) ∧
      (∀ v, (none : Option ℕ) = some v → e.frameRate = v) ∧
      (SpriteConfig.getAnimation SpriteConfig.DEFAULT_ANIMATIONS "attack" "down" =
          none →
        e = SpriteConfig.newEntry "attack" "down" ⟨some 13, none, none, none⟩) :=
  config_update_get_round_trip SpriteConfig.DEFAULT_ANIMATIONS "attack" "down"
    ⟨some 13, none, none, none⟩

namespace SpriteGenerator

/-- The `this.colors` palette of the SpriteGenerator constructor. -/
structure Palette where
  skin : String
  skinShadow : String
  hair : String
  hairHighlight : String
  shirt : String
  shirtShadow : String
  pants : String
  pantsShadow : String
  shoes : String
  outline : String
  eyes : String
deriving DecidableEq, Repr

/-- The palette values of the SpriteGenerator constructor. -/
def colors : Palette :=
  ⟨"#f4c99b", "#d4a574", "#4a3728", "#5c4333", "#3498db", "#2980b9",
   "#2c3e50", "#1a252f", "#8b4513", "#2c2c2c", "#2c2c2c"⟩

/-- One `ctx.fillRect` call: position floored to integers by
`drawPixelRect` / `drawPixel`, literal width and height, fill color. -/
structure DrawCmd where
  x : ℤ
  y : ℤ
  w : ℕ
  h : ℕ
  color : String
deriving DecidableEq, Repr

/-- `drawPixelRect(ctx, x, y, width, height, color)`:
`ctx.fillRect(Math.floor(x), Math.floor(y), width, height)`. -/
def drawPixelRect (x y : ℚ) (w h : ℕ) (color : String) : DrawCmd :=
  ⟨⌊x⌋, ⌊y⌋, w, h, color⟩

/-- `drawPixel(ctx, x, y, color)`: a 1×1 `fillRect` at the floored point. -/
def drawPixel (x y : ℚ) (color : String) : DrawCmd :=
  ⟨⌊x⌋, ⌊y⌋, 1, 1, color⟩

/-- `drawLegs` (SpriteGenerator.js lines 259-284): side views draw a back and
a front leg from the left/right cycle offsets, front and back views draw both
legs with the vertical cycle offsets. -/
def drawLegs (centerX baseY : ℚ) (d : Direction) (p : LegPos) : List DrawCmd :=
  let legHeight : ℚ := 8
  if d = .left ∨ d = .right then
    let frontLegX := if d = .left then p.leftX else p.rightX
    let backLegX := if d = .left then p.rightX else p.leftX
    [drawPixelRect (centerX + backLegX - 2) (baseY - legHeight - 2) 3 8
        colors.pantsShadow,
     drawPixelRect (centerX + backLegX - 2) (baseY - 3) 3 3 colors.shoes,
     drawPixelRect (centerX + frontLegX - 2) (baseY - legHeight) 3 8 colors.pants,
     drawPixelRect (centerX + frontLegX - 2) (baseY - 2) 3 2 colors.shoes]
  else
    [drawPixelRect (centerX - 5) (baseY - legHeight + p.leftY) 4 8 colors.pants,
     drawPixelRect (centerX - 5) (baseY - 2 + p.leftY) 4 2 colors.shoes,
     drawPixelRect (centerX + 1) (baseY - legHeight + p.rightY) 4 8 colors.pants,
     drawPixelRect (centerX + 1) (baseY - 2 + p.rightY) 4 2 colors.shoes]

/-- `drawBody` (lines 289-303): torso plus a direction-dependent shadow. -/
def drawBody (centerX baseY : ℚ) (d : Direction) : List DrawCmd :=
  let bodyTop := baseY - 18
  [drawPixelRect (centerX - 5) bodyTop 10 10 colors.shirt] ++
  (if d = .left then
    [drawPixelRect (centerX + 2) bodyTop 3 10 colors.shirtShadow]
  else if d = .right then
    [drawPixelRect (centerX - 5) bodyTop 3 10 colors.shirtShadow]
  else
    [drawPixelRect (centerX - 5) (bodyTop + 7) 10 3 colors.shirtShadow])

/-- `drawArms` (lines 308-327). `sinTwoPi t` models the JavaScript value
`Math.sin(t * Math.PI * 2)`: the swing is
`Math.sin((frame / 6) * Math.PI * 2) * swingAmount` with amount 3 for run and
2 for walk, and 0 for any other action. Only side views draw an arm. -/
def drawArms (sinTwoPi : ℚ → ℚ) (centerX baseY : ℚ) (d : Direction) (a : Action)
    (frame : ℤ) : List DrawCmd :=
  let armY := baseY - 16
  let armSwing : ℚ :=
    if a = .walk ∨ a = .run then
      sinTwoPi ((frame : ℚ) / 6) * (if a = .run then 3 else 2)
    else 0
  if d = .left then
    [drawPixelRect (centerX + 4) (armY + armSwing) 3 6 colors.shirt,
     drawPixelRect (centerX + 4) (armY + 5 + armSwing) 3 2 colors.skin]
  else if d = .right then
    [drawPixelRect (centerX - 7) (armY - armSwing) 3 6 colors.shirt,
     drawPixelRect (centerX - 7) (armY + 5 - armSwing) 3 2 colors.skin]
  else []

/-- `drawHead` (lines 332-346): rounded head plus a side shadow. -/
def drawHead (centerX baseY : ℚ) (d : Direction) : List DrawCmd :=
  let headTop := baseY - 26
  [drawPixelRect (centerX - 5) (headTop + 1) 10 7 colors.skin,
   drawPixelRect (centerX - 4) headTop 8 1 colors.skin,
   drawPixelRect (centerX - 4) (headTop + 8) 8 1 colors.skin] ++
  (if d = .left then
    [drawPixelRect (centerX + 3) (headTop + 1) 2 7 colors.skinShadow]
  else if d = .right then
    [drawPixelRect (centerX - 5) (headTop + 1) 2 7 colors.skinShadow]
  else [])

/-- `drawFace` (lines 351-357): two front-view eyes. -/
def drawFace (centerX baseY : ℚ) : List DrawCmd :=
  let headTop := baseY - 26
  [drawPixel (centerX - 3) (headTop + 3) colors.eyes,
   drawPixel (centerX + 2) (headTop + 3) colors.eyes]

/-- `drawFaceSide` (lines 362-368): the single visible side-view eye. -/
def drawFaceSide (centerX baseY : ℚ) (d : Direction) : List DrawCmd :=
  let headTop := baseY - 26
  let eyeX := if d = .left then centerX - 3 else centerX + 2
  [drawPixel eyeX (headTop + 3) colors.eyes]

/-- `drawHairFront` (lines 373-386): top hair, fringe, highlight. -/
def drawHairFront (centerX baseY : ℚ) : List DrawCmd :=
  let headTop := baseY - 26
  [drawPixelRect (centerX - 5) (headTop - 2) 10 3 colors.hair,
   drawPixelRect (centerX - 4) (headTop - 3) 8 1 colors.hair,
   drawPixelRect (centerX - 4) headTop 3 2 colors.hair,
   drawPixelRect (centerX + 1) headTop 3 2 colors.hair,
   drawPixel (centerX - 2) (headTop - 2) colors.hairHighlight]

/-- `drawHairBack` (lines 391-400): hair covering the whole head. -/
def drawHairBack (centerX baseY : ℚ) : List DrawCmd :=
  let headTop := baseY - 26
  [drawPixelRect (centerX - 5) (headTop - 2) 10 10 colors.hair,
   drawPixelRect (centerX - 4) (headTop - 3) 8 1 colors.hair,
   drawPixel centerX (headTop - 1) colors.hairHighlight]

/-- `drawHairSide` (lines 405-421): top hair, one side strand, highlight. -/
def drawHairSide (centerX baseY : ℚ) (d : Direction) : List DrawCmd :=
  let headTop := baseY - 26
  [drawPixelRect (centerX - 5) (headTop - 2) 10 3 colors.hair,
   drawPixelRect (centerX - 4) (headTop - 3) 8 1 colors.hair] ++
  (if d = .left then [drawPixelRect (centerX + 3) headTop 2 5 colors.hair]
   else [drawPixelRect (centerX - 5) headTop 2 5 colors.hair]) ++
  [drawPixel (centerX - 1) (headTop - 2) colors.hairHighlight]

/-- `drawCharacter` (SpriteGenerator.js lines 189-220) as the ordered list of
`fillRect` primitives it emits. `sinTwoPi` models the ambient `Math.sin` (see
`drawArms`); `rng` models the ambient `Math.random` stream, which is
available to every drawing routine but never sampled by character drawing. -/
def drawCharacter (sinTwoPi : ℚ → ℚ) (rng : ℕ → ℚ) (x y : ℚ) (d : Direction)
    (a : Action) (frame : ℤ) (offsetY : ℚ) : List DrawCmd :=
  let centerX := x + (frameWidth : ℚ) / 2
  let baseY := y + (frameHeight : ℚ) - 4 + offsetY
  let legPositions := calculateLegPositions a frame
  if d = .up then
    drawLegs centerX baseY d legPositions ++ drawBody centerX baseY d ++
      drawHead centerX baseY d ++ drawHairBack centerX baseY
  else if d = .down then
    drawLegs centerX baseY d legPositions ++ drawBody centerX baseY d ++
      drawHead centerX baseY d ++ drawFace centerX baseY ++
      drawHairFront centerX baseY
  else
    drawLegs centerX baseY d legPositions ++ drawBody centerX baseY d ++
      drawArms sinTwoPi centerX baseY d a frame ++ drawHead centerX baseY d ++
      drawFaceSide centerX baseY d ++ drawHairSide centerX baseY d

/-- `GameScene.generateGroundTiles`: the decorative ground texture is the one
drawing routine that samples the `Math.random` stream — 20 light speckles and
10 darker blades at random positions over the base tile. -/
def generateGroundTiles (rng : ℕ → ℚ) : List DrawCmd :=
  [⟨0, 0, 32, 32, "#4a7c59"⟩] ++
  ((List.range 20).map fun i =>
    drawPixelRect (rng (2 * i) * 30) (rng (2 * i + 1) * 30) 2 2 "#5a8c69") ++
  ((List.range 10).map fun i =>
    drawPixelRect (rng (40 + 2 * i) * 28) (rng (40 + 2 * i + 1) * 28) 3 1
      "#3a6c49")

end SpriteGenerator

/-- C8: character frame generation is deterministic — the emitted primitive
sequence depends only on `(position, direction, action, frame, offset)` and
the fixed `Math.sin` function, and is independent of the ambient
`Math.random` stream, so two invocations with identical inputs emit the
identical sequence of draw primitives. -/
theorem drawCharacter_deterministic (sinTwoPi : ℚ → ℚ) (rngA rngB : ℕ → ℚ)
    (x y : ℚ) (d : Direction) (a : Action) (frame : ℤ) (offsetY : ℚ) :
    SpriteGenerator.drawCharacter sinTwoPi rngA x y d a frame offsetY =
    SpriteGenerator.drawCharacter sinTwoPi rngB x y d a frame offsetY := rfl

/-- Counterexample to C9: a negative frame index is not rejected — the
generator silently recovers via the `|| walkCycle[0]` fallback, returning the
neutral stance and emitting a full frame's worth of primitives. -/
theorem negative_frame_silently_draws :
    SpriteGenerator.calculateLegPositions .walk (-1) = ⟨-2, 2, 0, 0⟩ ∧
    SpriteGenerator.drawCharacter (fun _ => 0) (fun _ => 0) 0 0 .down .walk
      (-1) 0 ≠ [] := by
  constructor
  · rfl
  · decide

/-- C9 amended: an out-of-range frame index does not fail and is not a
precondition violation: `calculateLegPositions` silently substitutes the
neutral cycle entry for walk and its amplification for run, and the emitted
front-view frame is identical to the frame drawn for index 0. -/
theorem out_of_range_frame_recovers (f : ℤ) (h : ¬ (0 ≤ f ∧ f < 6)) :
    SpriteGenerator.calculateLegPositions .walk f = ⟨-2, 2, 0, 0⟩ ∧
    SpriteGenerator.calculateLegPositions .run f =
      SpriteGenerator.scaleForRun ⟨-2, 2, 0, 0⟩ ∧
    SpriteGenerator.drawCharacter (fun _ => 0) (fun _ => 0) 0 0 .down .walk f 0 =
      SpriteGenerator.drawCharacter (fun _ => 0) (fun _ => 0) 0 0 .down .walk
        0 0 := by
  have hw : SpriteGenerator.calculateLegPositions .walk f = ⟨-2, 2, 0, 0⟩ := by
    simp [SpriteGenerator.calculateLegPositions, SpriteGenerator.cycleEntry, h]
    rfl
  have h0 : SpriteGenerator.calculateLegPositions .walk f =
      SpriteGenerator.calculateLegPositions .walk 0 := by
    rw [hw]; rfl
  refine ⟨hw, ?_, ?_⟩
  · simp [SpriteGenerator.calculateLegPositions, SpriteGenerator.cycleEntry, h]
    rfl
  · simp [SpriteGenerator.drawCharacter, h0]

/-- Witness for C9 amended: the frame index −1 from the claim's own example. -/
theorem out_of_range_frame_recovers_witness :
    ¬ ((0 : ℤ) ≤ -1 ∧ (-1 : ℤ) < 6) ∧
    SpriteGenerator.calculateLegPositions .walk (-1) = ⟨-2, 2, 0, 0⟩ ∧
    SpriteGenerator.calculateLegPositions .run (-1) =
      SpriteGenerator.scaleForRun ⟨-2, 2, 0, 0⟩ ∧
    SpriteGenerator.drawCharacter (fun _ => 0) (fun _ => 0) 0 0 .down .walk
      (-1) 0 =
      SpriteGenerator.drawCharacter (fun _ => 0) (fun _ => 0) 0 0 .down .walk
        0 0 :=
  ⟨by decide, out_of_range_frame_recovers (-1) (by decide)⟩

end Game1
